import Mathlib

/-!
Verification of the user-management CRUD service.

The development shallowly embeds the request-to-response pipeline of the
service: the field-mapper conversions (`internal/utils`), the error model
(`internal/models/error.go`), the request/response shapes
(`internal/models/user.go`), and the service layer
(`internal/service/user_service.go`).  The service functions are
parameterized by a storage interface so that they can be run both against
a response oracle that records the trace of issued storage operations and
against a pure in-memory database state.
-/

set_option autoImplicit false

namespace UserAPI

/-- `pgtype.Text`: a nullable string as stored in PostgreSQL.
The Go struct has a `String` payload and a `Valid` flag; the zero value is
`{String: "", Valid: false}`. -/
structure Text where
  string : String
  valid : Bool
deriving Repr, DecidableEq

/-- `pgtype.Int4`: a nullable 32-bit integer as stored in PostgreSQL.
The Go struct has an `Int32` payload and a `Valid` flag; the zero value is
`{Int32: 0, Valid: false}`.  The payload is modelled as an `Int`; Go's
`int32` typing guarantees it lies in `[-2^31, 2^31)`, which theorems about
storage values take as a hypothesis. -/
structure Int4 where
  int32 : Int
  valid : Bool
deriving Repr, DecidableEq

/-- `pgtype.Timestamptz`: a nullable timestamp; time modelled as a `Nat`. -/
structure Timestamptz where
  time : Nat
  valid : Bool
deriving Repr, DecidableEq

/-- Go's `int32(v)` conversion on a 64-bit `int` value: wrap modulo `2^32`
into the signed 32-bit range. -/
def int32ofInt (i : Int) : Int :=
  (i + 2147483648) % 4294967296 - 2147483648

/-- `utils.ConvertStringPtrToText`: `*string → pgtype.Text`.
`nil` becomes `{Valid: false}` (whose `String` is the zero value `""`);
a present pointer becomes `{String: *s, Valid: true}`. -/
def ConvertStringPtrToText (s : Option String) : Text :=
  match s with
  | none => ⟨"", false⟩
  | some v => ⟨v, true⟩

/-- `utils.ConvertTextToStringPtr`: `pgtype.Text → *string`.
An invalid text becomes `nil`; a valid one a pointer to its string. -/
def ConvertTextToStringPtr (t : Text) : Option String :=
  if t.valid then some t.string else none

/-- `utils.ConvertIntPtrToInt4`: `*int → pgtype.Int4`.
`nil` becomes `{Valid: false}`; a present pointer becomes
`{Int32: int32(*i), Valid: true}` — note the narrowing `int32` cast. -/
def ConvertIntPtrToInt4 (i : Option Int) : Int4 :=
  match i with
  | none => ⟨0, false⟩
  | some v => ⟨int32ofInt v, true⟩

/-- `utils.ConvertInt4ToIntPtr`: `pgtype.Int4 → *int`.
An invalid int4 becomes `nil`; a valid one a pointer to `int(i.Int32)`
(a widening, hence exact, conversion). -/
def ConvertInt4ToIntPtr (i : Int4) : Option Int :=
  if i.valid then some i.int32 else none

/-- A UUID: 16 bytes, as in `github.com/google/uuid`. -/
structure UUID where
  bytes : List Nat
deriving Repr, DecidableEq

/-- Value of one hexadecimal digit, `none` for a non-hex character
(the `xtob` table of `github.com/google/uuid`). -/
def hexVal (c : Char) : Option Nat :=
  if '0' ≤ c ∧ c ≤ '9' then some (c.toNat - '0'.toNat)
  else if 'a' ≤ c ∧ c ≤ 'f' then some (c.toNat - 'a'.toNat + 10)
  else if 'A' ≤ c ∧ c ≤ 'F' then some (c.toNat - 'A'.toNat + 10)
  else none

/-- Byte denoted by two hexadecimal characters (`xtob`). -/
def xtob (c1 c2 : Char) : Option Nat :=
  match hexVal c1, hexVal c2 with
  | some h, some l => some (h * 16 + l)
  | _, _ => none

/-- The byte written at positions `i, i+1` of a character list. -/
def byteAt (cs : List Char) (i : Nat) : Option Nat :=
  match cs.get? i, cs.get? (i + 1) with
  | some a, some b => xtob a b
  | _, _ => none

/-- Parse the canonical 36-character form
`xxxxxxxx-xxxx-xxxx-xxxx-xxxxxxxxxxxx`: hyphens at positions 8, 13, 18
and 23, the 16 bytes read from the remaining positions. -/
def parseCanonical (cs : List Char) : Option UUID :=
  if cs.get? 8 = some '-' ∧ cs.get? 13 = some '-' ∧
     cs.get? 18 = some '-' ∧ cs.get? 23 = some '-' then
    match ([0, 2, 4, 6, 9, 11, 14, 16, 19, 21, 24, 26, 28, 30,
            32, 34] : List Nat).mapM (byteAt cs) with
    | some bs => some ⟨bs⟩
    | none => none
  else none

/-- Model of `uuid.Parse` from `github.com/google/uuid` (an external
dependency): accepts the canonical 36-character form, the
`urn:uuid:`-prefixed form (prefix compared case-insensitively), the
38-character form with the first character dropped, and the raw
32-hex-digit form; anything else fails. -/
def uuidParse (s : String) : Option UUID :=
  let cs := s.data
  match cs.length with
  | 36 => parseCanonical cs
  | 45 =>
    if (cs.take 9).map Char.toLower = ("urn:uuid:".data) then
      parseCanonical (cs.drop 9)
    else none
  | 38 => parseCanonical (cs.drop 1)
  | 32 =>
    match (List.range 16).mapM (fun i => byteAt cs (2 * i)) with
    | some bs => some ⟨bs⟩
    | none => none
  | _ => none

/-! ## Request/response shapes (`internal/models/user.go`) -/

/-- `models.UserStatus` is a Go string type; its values are unconstrained
strings, with two named constants. -/
abbrev UserStatus := String

/-- `models.UserStatusActive`. -/
def UserStatusActive : UserStatus := "Active"

/-- `models.UserStatusInactive`. -/
def UserStatusInactive : UserStatus := "Inactive"

/-- `models.CreateUserRequest`: firstName, lastName and email are plain
strings; phone and age are pointers (optional); status is a non-pointer
`UserStatus` string, so a JSON body that omits it decodes to `""`. -/
structure CreateUserRequest where
  firstName : String
  lastName : String
  email : String
  phone : Option String
  age : Option Int
  status : UserStatus
deriving Repr, DecidableEq

/-- `models.UpdateUserRequest`: every field is a pointer (optional). -/
structure UpdateUserRequest where
  firstName : Option String
  lastName : Option String
  email : Option String
  phone : Option String
  age : Option Int
  status : Option UserStatus
deriving Repr, DecidableEq

/-- `models.UserResponse`: the response projection of a user. -/
structure UserResponse where
  userID : UUID
  firstName : String
  lastName : String
  email : String
  phone : Option String
  age : Option Int
  status : UserStatus
  createdAt : Nat
  updatedAt : Nat
deriving Repr, DecidableEq

/-- `models.ListUsersResponse`. -/
structure ListUsersResponse where
  users : List UserResponse
  total : Nat
deriving Repr, DecidableEq

/-! ## Error model (`internal/models/error.go`, handler helpers) -/

/-- `models.AppError`: status code, message, and the wrapped underlying
cause (`Err`, tagged `json:"-"`), modelled as an optional opaque string
(`none` is Go's `nil` error). -/
structure AppError where
  statusCode : Nat
  message : String
  err : Option String
deriving Repr, DecidableEq

/-- `models.NewBadRequestError`. -/
def NewBadRequestError (message : String) : AppError :=
  ⟨400, message, none⟩

/-- `models.NewNotFoundError`. -/
def NewNotFoundError (message : String) : AppError :=
  ⟨404, message, none⟩

/-- `models.NewInternalServerError`: wraps the underlying cause. -/
def NewInternalServerError (message : String) (cause : String) : AppError :=
  ⟨500, message, some cause⟩

/-- `models.NewConflictError`. -/
def NewConflictError (message : String) : AppError :=
  ⟨409, message, none⟩

/-- `models.ErrorResponse`: the JSON structure sent to clients — a status
text, a human-readable message, and an optional field-error map
(`details`, omitted when empty). -/
structure ErrorResponse where
  error : String
  message : String
  details : Option (List (String × String))
deriving Repr, DecidableEq

/-- Model of `net/http.StatusText` (standard library) on the codes this
service uses. -/
def statusText (code : Nat) : String :=
  if code = 400 then "Bad Request"
  else if code = 404 then "Not Found"
  else if code = 409 then "Conflict"
  else if code = 500 then "Internal Server Error"
  else if code = 200 then "OK"
  else if code = 201 then "Created"
  else ""

/-- `UserHandler.sendError` (handler helpers next to `cmd/api/main.go`):
builds the response body from the status code and message only — the
wrapped `Err` is never read. -/
def sendError (appErr : AppError) : ErrorResponse :=
  { error := statusText appErr.statusCode
    message := appErr.message
    details := none }

/-- `UserHandler.sendValidationError`: the body for validation failures. -/
def sendValidationError (errors : List (String × String)) : ErrorResponse :=
  { error := "Validation Failed"
    message := "One or more fields failed validation"
    details := some errors }

/-! ## Storage layer (`db/sqlc` generated code and the SQL queries) -/

/-- `database.User`: a row of the `users` table. -/
structure DBUser where
  userID : UUID
  firstName : String
  lastName : String
  email : String
  phone : Text
  age : Int4
  status : String
  createdAt : Timestamptz
  updatedAt : Timestamptz
deriving Repr, DecidableEq

/-- `database.CreateUserParams`. -/
structure CreateUserParams where
  firstName : String
  lastName : String
  email : String
  phone : Text
  age : Int4
  status : String
deriving Repr, DecidableEq

/-- `database.NullUserStatus`: a nullable enum value; the zero value of
the embedded `UserStatus` string is `""`. -/
structure NullUserStatus where
  userStatus : String
  valid : Bool
deriving Repr, DecidableEq

/-- `database.UpdateUserParams`: every updatable field carries a
nullable value; an invalid ("no value") marker means "leave unchanged". -/
structure UpdateUserParams where
  userID : UUID
  firstName : Text
  lastName : Text
  email : Text
  phone : Text
  age : Int4
  status : NullUserStatus
deriving Repr, DecidableEq

/-- Errors a storage call can produce: `pgx.ErrNoRows`, a PostgreSQL
unique-constraint violation (23505), a check-constraint violation
(23514, the schema's `CHECK (age > 0)`), a varchar length overflow
(22001, the schema's `VARCHAR(50/255/20)` columns), an invalid enum
input (22P02, the `user_status` type), or any other failure. -/
inductive DBError where
  | noRows
  | uniqueViolation (constraint : String)
  | checkViolation (constraint : String)
  | stringTooLong
  | invalidEnum (value : String)
  | other (msg : String)
deriving Repr, DecidableEq

/-- The message text of a storage error, used when the service wraps it
into an `InternalServerError` cause. -/
def dbErrMsg : DBError → String
  | .noRows => "no rows in result set"
  | .uniqueViolation c =>
      "duplicate key value violates unique constraint " ++ c
  | .checkViolation c =>
      "new row for relation users violates check constraint " ++ c
  | .stringTooLong => "value too long for type character varying"
  | .invalidEnum v => "invalid input value for enum user_status: " ++ v
  | .other m => m

/-- One storage operation as issued by the service layer. -/
inductive StorageOp where
  | emailExists (email : String)
  | createUser (params : CreateUserParams)
  | getUserByID (id : UUID)
  | userExists (id : UUID)
  | updateUser (params : UpdateUserParams)
  | deleteUser (id : UUID)
  | listUsers
deriving Repr, DecidableEq

/-- The storage interface the service depends on (the `database.Queries`
methods it calls), over an abstract storage state `σ`. -/
structure Storage (σ : Type) where
  emailExists : σ → String → Except DBError Bool × σ
  createUser : σ → CreateUserParams → Except DBError DBUser × σ
  getUserByID : σ → UUID → Except DBError DBUser × σ
  userExists : σ → UUID → Except DBError Bool × σ
  updateUser : σ → UpdateUserParams → Except DBError DBUser × σ
  deleteUser : σ → UUID → Except DBError Unit × σ
  listUsers : σ → Except DBError (List DBUser) × σ

/-- `utils.ConvertToUserResponse`: projects a database row to the API
response shape; optional fields go through the pointer conversions,
timestamps are copied. -/
def ConvertToUserResponse (user : DBUser) : UserResponse :=
  { userID := user.userID
    firstName := user.firstName
    lastName := user.lastName
    email := user.email
    phone := ConvertTextToStringPtr user.phone
    age := ConvertInt4ToIntPtr user.age
    status := user.status
    createdAt := user.createdAt.time
    updatedAt := user.updatedAt.time }

/-! ### Trace instantiation: a response oracle that records issued ops -/

deriving instance DecidableEq for Except

/-- Fixed responses for each storage operation (each is issued at most
once per request), used to drive the service through any storage
behaviour, including failures that a sequential in-memory database could
not produce. -/
structure OracleResponses where
  emailExistsR : Except DBError Bool
  createUserR : Except DBError DBUser
  getUserByIDR : Except DBError DBUser
  userExistsR : Except DBError Bool
  updateUserR : Except DBError DBUser
  deleteUserR : Except DBError Unit
  listUsersR : Except DBError (List DBUser)
deriving Repr, DecidableEq

/-- State of the trace instantiation: the operations issued so far,
plus the oracle answering them. -/
abbrev TraceState := List StorageOp × OracleResponses

/-- Storage that answers from the oracle and appends every issued
operation to the trace. -/
def traceStorage : Storage TraceState :=
  { emailExists := fun st e =>
      (st.2.emailExistsR, (st.1 ++ [.emailExists e], st.2))
    createUser := fun st p =>
      (st.2.createUserR, (st.1 ++ [.createUser p], st.2))
    getUserByID := fun st id =>
      (st.2.getUserByIDR, (st.1 ++ [.getUserByID id], st.2))
    userExists := fun st id =>
      (st.2.userExistsR, (st.1 ++ [.userExists id], st.2))
    updateUser := fun st p =>
      (st.2.updateUserR, (st.1 ++ [.updateUser p], st.2))
    deleteUser := fun st id =>
      (st.2.deleteUserR, (st.1 ++ [.deleteUser id], st.2))
    listUsers := fun st =>
      (st.2.listUsersR, (st.1 ++ [.listUsers], st.2)) }

/-! ### Pure database instantiation -/

/-- An in-memory database state: the rows of the `users` table, plus the
identifier and timestamp the server would assign to the next insert or
update. -/
structure DBState where
  rows : List DBUser
  freshID : UUID
  now : Nat
deriving Repr, DecidableEq

/-- Whether some row holds the given email (the `EmailExists` query). -/
def emailExistsState (rows : List DBUser) (email : String) : Bool :=
  rows.any (fun u => u.email = email)

/-- Whether some row holds the given identifier (the `UserExists`
query). -/
def userExistsState (rows : List DBUser) (id : UUID) : Bool :=
  rows.any (fun u => u.userID = id)

/-- The `SET` clause of the `UpdateUser` query (sqlc query file in the
sources): every column is `COALESCE($i, column)` and
`updated_at = CURRENT_TIMESTAMP`.  A "no value" (SQL NULL) parameter
leaves the stored column untouched; a "has value" parameter overwrites
it; `updated_at` is set to the server time. -/
def applyUpdate (u : DBUser) (p : UpdateUserParams) (now : Nat) : DBUser :=
  { userID := u.userID
    firstName := if p.firstName.valid then p.firstName.string else u.firstName
    lastName := if p.lastName.valid then p.lastName.string else u.lastName
    email := if p.email.valid then p.email.string else u.email
    phone := if p.phone.valid then ⟨p.phone.string, true⟩ else u.phone
    age := if p.age.valid then ⟨p.age.int32, true⟩ else u.age
    status := if p.status.valid then p.status.userStatus else u.status
    createdAt := u.createdAt
    updatedAt := ⟨now, true⟩ }

/-- The column-level checks the schema imposes on any written row: the
`VARCHAR(50/255/20)` lengths of first name, last name, email and phone,
the `user_status` enum membership, and `CHECK (age > 0)` (NULL age
passes).  Returns the error the write fails with, `none` if the row is
acceptable. -/
def columnConstraintError (u : DBUser) : Option DBError :=
  if 50 < u.firstName.length ∨ 50 < u.lastName.length ∨
     255 < u.email.length ∨
     (u.phone.valid = true ∧ 20 < u.phone.string.length) then
    some .stringTooLong
  else if ¬ (u.status = "Active" ∨ u.status = "Inactive") then
    some (.invalidEnum u.status)
  else if u.age.valid = true ∧ u.age.int32 ≤ 0 then
    some (.checkViolation "users_age_check")
  else none

/-- The constraint check of the `CreateUser` insert: the column checks,
then the `user_id` primary key and the `UNIQUE` email constraint against
the existing rows. -/
def insertConstraintError (rows : List DBUser) (u : DBUser) :
    Option DBError :=
  match columnConstraintError u with
  | some e => some e
  | none =>
    if rows.any (fun r => r.userID = u.userID) then
      some (.uniqueViolation "users_pkey")
    else if rows.any (fun r => r.email = u.email) then
      some (.uniqueViolation "users_email_key")
    else none

/-- The constraint check of the `UpdateUser` write on the coalesced row:
the column checks, then the `UNIQUE` email constraint against every
other row. -/
def updateConstraintError (rows : List DBUser) (u : DBUser) :
    Option DBError :=
  match columnConstraintError u with
  | some e => some e
  | none =>
    if rows.any (fun r => ¬ r.userID = u.userID ∧ r.email = u.email) then
      some (.uniqueViolation "users_email_key")
    else none

/-- Insert a row into a list sorted by `created_at` descending, keeping
it sorted (rows with equal timestamps keep their relative order — the
`ORDER BY created_at DESC` query leaves the tie order unspecified, and
the model fixes one deterministic choice). -/
def insertDescByCreatedAt (u : DBUser) : List DBUser → List DBUser
  | [] => [u]
  | v :: vs =>
    if u.createdAt.time ≤ v.createdAt.time then
      v :: insertDescByCreatedAt u vs
    else u :: v :: vs

/-- The `ORDER BY created_at DESC` of the `ListUsers` query: the rows
sorted by creation time, newest first. -/
def orderByCreatedAtDesc : List DBUser → List DBUser
  | [] => []
  | u :: us => insertDescByCreatedAt u (orderByCreatedAtDesc us)

/-- The storage gateway run against the pure in-memory `users` table,
transliterating the sqlc query file and the schema migration included in
the sources: `EmailExists`/`UserExists` are `SELECT EXISTS`;
`CreateUser` assigns the server-side identifier and timestamps and
enforces the schema's column and uniqueness constraints; `GetUserByID`
is a keyed `:one` select (`pgx.ErrNoRows` when absent); `UpdateUser`
applies the COALESCE `SET` clause to the matched row, enforcing the same
constraints, and fails with `pgx.ErrNoRows` when no row matches;
`DeleteUser` is an unconditional `:exec` delete; `ListUsers` returns the
rows ordered by `created_at` descending. -/
def dbStorage : Storage DBState :=
  { emailExists := fun st e => (.ok (emailExistsState st.rows e), st)
    createUser := fun st p =>
      let u : DBUser :=
        { userID := st.freshID
          firstName := p.firstName
          lastName := p.lastName
          email := p.email
          phone := p.phone
          age := p.age
          status := p.status
          createdAt := ⟨st.now, true⟩
          updatedAt := ⟨st.now, true⟩ }
      match insertConstraintError st.rows u with
      | some e => (.error e, st)
      | none => (.ok u, { st with rows := st.rows ++ [u] })
    getUserByID := fun st id =>
      match st.rows.find? (fun u => u.userID = id) with
      | some u => (.ok u, st)
      | none => (.error .noRows, st)
    userExists := fun st id => (.ok (userExistsState st.rows id), st)
    updateUser := fun st p =>
      match st.rows.find? (fun u => u.userID = p.userID) with
      | some u =>
        let u' := applyUpdate u p st.now
        match updateConstraintError st.rows u' with
        | some e => (.error e, st)
        | none =>
          (.ok u',
           { st with rows :=
              st.rows.map (fun r => if r.userID = p.userID then u' else r) })
      | none => (.error .noRows, st)
    deleteUser := fun st id =>
      (.ok (), { st with rows := st.rows.filter (fun u => ¬ u.userID = id) })
    listUsers := fun st => (.ok (orderByCreatedAtDesc st.rows), st) }

/-! ## Service layer (`internal/service/user_service.go`) -/

namespace UserService

/-- `UserService.CreateUser`: check email existence, default the status,
build the insert parameters and insert.  Any insert failure — including a
unique-constraint violation — is wrapped as `InternalServerError`. -/
def CreateUser {σ : Type} (q : Storage σ) (st : σ)
    (req : CreateUserRequest) : Except AppError UserResponse × σ :=
  match q.emailExists st req.email with
  | (.error e, st) =>
    (.error (NewInternalServerError "Failed to check email existence"
      (dbErrMsg e)), st)
  | (.ok true, st) => (.error (NewConflictError "Email Already Exists"), st)
  | (.ok false, st) =>
    let status := if req.status = "" then UserStatusActive else req.status
    let params : CreateUserParams :=
      { firstName := req.firstName
        lastName := req.lastName
        email := req.email
        phone := ConvertStringPtrToText req.phone
        age := ConvertIntPtrToInt4 req.age
        status := status }
    match q.createUser st params with
    | (.error e, st) =>
      (.error (NewInternalServerError "Failed to create user" (dbErrMsg e)),
       st)
    | (.ok user, st) => (.ok (ConvertToUserResponse user), st)

/-- `UserService.GetUserByID`: parse the identifier, then query;
`pgx.ErrNoRows` becomes NotFound, any other failure
`InternalServerError`. -/
def GetUserByID {σ : Type} (q : Storage σ) (st : σ)
    (userID : String) : Except AppError UserResponse × σ :=
  match uuidParse userID with
  | none => (.error (NewBadRequestError "Invalid user ID format"), st)
  | some id =>
    match q.getUserByID st id with
    | (.error .noRows, st) => (.error (NewNotFoundError "User not found"), st)
    | (.error e, st) =>
      (.error (NewInternalServerError "Failed to get user" (dbErrMsg e)), st)
    | (.ok user, st) => (.ok (ConvertToUserResponse user), st)

/-- `UserService.ListUsers`: read all rows and project each one. -/
def ListUsers {σ : Type} (q : Storage σ) (st : σ) :
    Except AppError ListUsersResponse × σ :=
  match q.listUsers st with
  | (.error e, st) =>
    (.error (NewInternalServerError "Failed to list users" (dbErrMsg e)), st)
  | (.ok users, st) =>
    let userResponses := users.map ConvertToUserResponse
    (.ok { users := userResponses, total := userResponses.length }, st)

/-- The `database.UpdateUserParams` literal built inside
`UserService.UpdateUser`: every optional request field goes through the
pointer conversion; an absent status becomes the invalid
`NullUserStatus` zero value. -/
def buildUpdateParams (id : UUID) (req : UpdateUserRequest) :
    UpdateUserParams :=
  { userID := id
    firstName := ConvertStringPtrToText req.firstName
    lastName := ConvertStringPtrToText req.lastName
    email := ConvertStringPtrToText req.email
    phone := ConvertStringPtrToText req.phone
    age := ConvertIntPtrToInt4 req.age
    status :=
      match req.status with
      | some s => ⟨s, true⟩
      | none => ⟨"", false⟩ }

/-- The tail of `UserService.UpdateUser`: issue the update and project
the returned row. -/
def updateUserWrite {σ : Type} (q : Storage σ) (st : σ) (id : UUID)
    (req : UpdateUserRequest) : Except AppError UserResponse × σ :=
  match q.updateUser st (buildUpdateParams id req) with
  | (.error e, st) =>
    (.error (NewInternalServerError "Failed to update user" (dbErrMsg e)), st)
  | (.ok user, st) => (.ok (ConvertToUserResponse user), st)

/-- `UserService.UpdateUser`: parse the identifier, check existence,
check the email conflict when an email is supplied (conflict only when
the email exists and differs from the current user's email), then
update. -/
def UpdateUser {σ : Type} (q : Storage σ) (st : σ) (userID : String)
    (req : UpdateUserRequest) : Except AppError UserResponse × σ :=
  match uuidParse userID with
  | none => (.error (NewBadRequestError "Invalid user ID format"), st)
  | some id =>
    match q.userExists st id with
    | (.error e, st) =>
      (.error (NewInternalServerError "Failed to check user" (dbErrMsg e)),
       st)
    | (.ok false, st) => (.error (NewNotFoundError "User not found"), st)
    | (.ok true, st) =>
      match req.email with
      | none => updateUserWrite q st id req
      | some e =>
        match q.emailExists st e with
        | (.error er, st) =>
          (.error (NewInternalServerError "Failed to check email"
            (dbErrMsg er)), st)
        | (.ok emailEx, st) =>
          match q.getUserByID st id with
          | (.error er, st) =>
            (.error (NewInternalServerError "Failed to get user"
              (dbErrMsg er)), st)
          | (.ok currentUser, st) =>
            if emailEx = true ∧ currentUser.email ≠ e then
              (.error (NewConflictError "Email already exists"), st)
            else updateUserWrite q st id req

/-- `UserService.DeleteUser`: parse the identifier, check existence,
then delete. -/
def DeleteUser {σ : Type} (q : Storage σ) (st : σ) (userID : String) :
    Except AppError Unit × σ :=
  match uuidParse userID with
  | none => (.error (NewBadRequestError "Invalid user ID format"), st)
  | some id =>
    match q.userExists st id with
    | (.error e, st) =>
      (.error (NewInternalServerError "Failed to check user" (dbErrMsg e)),
       st)
    | (.ok false, st) => (.error (NewNotFoundError "User not found"), st)
    | (.ok true, st) =>
      match q.deleteUser st id with
      | (.error e, st) =>
        (.error (NewInternalServerError "Failed to delete user"
          (dbErrMsg e)), st)
      | (.ok _, st) => (.ok (), st)

end UserService

/-- Modelled from the external `go-playground/validator` library applied
to the tag `validate:"omitempty,oneof=Active Inactive"` on
`CreateUserRequest.Status` (a non-pointer string, so an omitted JSON
field decodes to `""`): the zero value `""` short-circuits via
`omitempty` and produces no error; any other value must be one of the
listed literals, otherwise the `oneof` message from
`validator.formatValidationError` is produced. -/
def validateCreateStatus (s : String) : Option String :=
  if s = "" then none
  else if s = "Active" ∨ s = "Inactive" then none
  else some "status must be one of: Active Inactive"

/-! ## Concrete fixtures for witnesses -/

/-- The nil UUID. -/
def uuid0 : UUID := ⟨List.replicate 16 0⟩

/-- A sample stored row. -/
def sampleUser : DBUser :=
  { userID := uuid0
    firstName := "John"
    lastName := "Doe"
    email := "john@example.com"
    phone := ⟨"", false⟩
    age := ⟨0, false⟩
    status := "Active"
    createdAt := ⟨1, true⟩
    updatedAt := ⟨1, true⟩ }

/-- A sample all-successful response oracle. -/
def sampleOracle : OracleResponses :=
  { emailExistsR := .ok false
    createUserR := .ok sampleUser
    getUserByIDR := .ok sampleUser
    userExistsR := .ok true
    updateUserR := .ok sampleUser
    deleteUserR := .ok ()
    listUsersR := .ok [] }

/-- The update request with every field absent (the empty JSON body). -/
def emptyUpdate : UpdateUserRequest :=
  ⟨none, none, none, none, none, none⟩

/-- A sample create request with omitted status (which decodes to ""). -/
def sampleCreateReq : CreateUserRequest :=
  { firstName := "John"
    lastName := "Doe"
    email := "john@example.com"
    phone := none
    age := none
    status := "" }

/-- A sample one-row database state. -/
def sampleDB : DBState :=
  { rows := [sampleUser], freshID := ⟨List.replicate 15 0 ++ [1]⟩, now := 7 }

/-- The row `UserService.CreateUser` inserts for a given request when
the email check passes: the insert parameters it builds, completed with
the server-assigned identifier and timestamps. -/
def insertedRow (st : DBState) (req : CreateUserRequest) : DBUser :=
  { userID := st.freshID
    firstName := req.firstName
    lastName := req.lastName
    email := req.email
    phone := ConvertStringPtrToText req.phone
    age := ConvertIntPtrToInt4 req.age
    status := if req.status = "" then UserStatusActive else req.status
    createdAt := ⟨st.now, true⟩
    updatedAt := ⟨st.now, true⟩ }

/-- If `find?` returns a witness, `any` holds. -/
theorem any_of_find? {α : Type} {p : α → Bool} {l : List α} {u : α}
    (h : l.find? p = some u) : l.any p = true :=
  List.any_eq_true.mpr ⟨u, List.mem_of_find?_eq_some h, List.find?_some h⟩

/-- Sorted insertion adds exactly one row. -/
theorem length_insertDescByCreatedAt (u : DBUser) (l : List DBUser) :
    (insertDescByCreatedAt u l).length = l.length + 1 := by
  induction l with
  | nil => rfl
  | cons v vs ih =>
    simp only [insertDescByCreatedAt]
    split
    · simp [ih]
    · simp

/-- The `ORDER BY created_at DESC` projection preserves the number of
rows. -/
theorem length_orderByCreatedAtDesc (l : List DBUser) :
    (orderByCreatedAtDesc l).length = l.length := by
  induction l with
  | nil => rfl
  | cons u us ih =>
    simp only [orderByCreatedAtDesc, length_insertDescByCreatedAt, ih,
      List.length_cons]

/-- The write tail of the update flow never produces a Conflict: its
only error path wraps the storage failure as a 500
`InternalServerError`. -/
theorem updateUserWrite_error_is_500 {σ : Type} (q : Storage σ) (st : σ)
    (id : UUID) (req : UpdateUserRequest) (a : AppError)
    (h : (UserService.updateUserWrite q st id req).1 = .error a) :
    a.statusCode = 500 := by
  unfold UserService.updateUserWrite at h
  rcases hq : q.updateUser st (UserService.buildUpdateParams id req)
    with ⟨r, st2⟩
  rw [hq] at h
  cases r with
  | error e =>
    have ha : NewInternalServerError "Failed to update user" (dbErrMsg e)
        = a := Except.error.inj h
    rw [← ha]
    rfl
  | ok user => exact absurd h (by simp)

/-! ## Claims -/

/-- C9: the error body sent to the caller is built from the status code
and message alone — it consists of the status text, the message, and the
(here absent) field-error map; the wrapped cause of an
`InternalServerError` is never read, so two internal errors differing
only in their wrapped cause produce identical response bodies. -/
theorem claim9_error_body_hides_wrapped_cause :
    (∀ e : AppError,
        sendError e = ⟨statusText e.statusCode, e.message, none⟩) ∧
    (∀ (code : Nat) (msg : String) (c1 c2 : Option String),
        sendError ⟨code, msg, c1⟩ = sendError ⟨code, msg, c2⟩) :=
  ⟨fun _ => rfl, fun _ _ _ _ => rfl⟩

/-- C1: when the application-level email check passes (`EmailExists`
answers `false`) but the storage insert then fails with a
unique-constraint violation, `UserService.CreateUser` returns
`InternalServerError` ("Failed to create user"), not `Conflict` — the
code contradicts the claim, which states the result must be Conflict. -/
theorem claim1_unique_violation_surfaced_as_internal_error :
    (UserService.CreateUser traceStorage
      ([], { sampleOracle with
              createUserR := .error (.uniqueViolation "users_email_key") })
      sampleCreateReq).1 =
      .error (NewInternalServerError "Failed to create user"
        (dbErrMsg (.uniqueViolation "users_email_key"))) ∧
    (UserService.CreateUser traceStorage
      ([], { sampleOracle with
              createUserR := .error (.uniqueViolation "users_email_key") })
      sampleCreateReq).1 ≠
      .error (NewConflictError "Email Already Exists") := by
  constructor
  · rfl
  · decide

/-- C5: for every identifier string that does not parse as a UUID, the
get-by-id, update and delete operations fail with BadRequest
("Invalid user ID format") and leave any storage untouched — in
particular, run against the trace storage they issue no storage
operation of any kind. -/
theorem claim5_invalid_id_rejected_without_storage (s : String)
    (h : uuidParse s = none) :
    ∀ (σ : Type) (q : Storage σ) (st : σ) (req : UpdateUserRequest),
      UserService.GetUserByID q st s =
        (.error (NewBadRequestError "Invalid user ID format"), st) ∧
      UserService.UpdateUser q st s req =
        (.error (NewBadRequestError "Invalid user ID format"), st) ∧
      UserService.DeleteUser q st s =
        (.error (NewBadRequestError "Invalid user ID format"), st) := by
  intro σ q st req
  refine ⟨?_, ?_, ?_⟩ <;>
    simp [UserService.GetUserByID, UserService.UpdateUser,
      UserService.DeleteUser, h]

/-- Witness for C5 at the spec's example input `"not-a-valid-uuid"`:
the trace of issued storage operations stays empty. -/
theorem claim5_witness :
    uuidParse "not-a-valid-uuid" = none ∧
    UserService.GetUserByID traceStorage ([], sampleOracle)
        "not-a-valid-uuid" =
      (.error (NewBadRequestError "Invalid user ID format"),
       ([], sampleOracle)) :=
  ⟨rfl,
   (claim5_invalid_id_rejected_without_storage "not-a-valid-uuid" rfl
     TraceState traceStorage ([], sampleOracle) emptyUpdate).1⟩

/-- C7 counterexample: the optional-integer wire-to-storage-and-back
round trip is not the identity for every value — the storage marker
holds a 32-bit value, so `2147483648` comes back as `-2147483648`. -/
theorem claim7_counterexample :
    ConvertInt4ToIntPtr (ConvertIntPtrToInt4 (some (2147483648 : Int))) =
      some (-2147483648 : Int) ∧
    ConvertInt4ToIntPtr (ConvertIntPtrToInt4 (some (2147483648 : Int))) ≠
      some (2147483648 : Int) := by
  constructor
  · decide
  · decide

/-- C7 amended: the mapper conversions are pure functions and the round
trips hold with the restrictions the 32-bit storage width forces:
wire → storage → wire is the identity for every optional string, and for
an optional integer whose value fits in signed 32 bits; storage → wire →
storage is the identity for every storage value the Go code can
construct — a valid marker (with, for integers, a payload in the signed
32-bit range guaranteed by the `int32` type) or the zero-payload invalid
marker. -/
theorem claim7_amended_roundtrips :
    (∀ s : Option String,
        ConvertTextToStringPtr (ConvertStringPtrToText s) = s) ∧
    (∀ t : Text, t.valid = true ∨ t.string = "" →
        ConvertStringPtrToText (ConvertTextToStringPtr t) = t) ∧
    (ConvertInt4ToIntPtr (ConvertIntPtrToInt4 none) = none) ∧
    (∀ v : Int, -2147483648 ≤ v → v < 2147483648 →
        ConvertInt4ToIntPtr (ConvertIntPtrToInt4 (some v)) = some v) ∧
    (∀ x : Int4, x.valid = true →
        -2147483648 ≤ x.int32 → x.int32 < 2147483648 →
        ConvertIntPtrToInt4 (ConvertInt4ToIntPtr x) = x) ∧
    (∀ x : Int4, x.valid = false → x.int32 = 0 →
        ConvertIntPtrToInt4 (ConvertInt4ToIntPtr x) = x) := by
  refine ⟨?_, ?_, rfl, ?_, ?_, ?_⟩
  · intro s
    cases s <;> rfl
  · intro t h
    obtain ⟨str, val⟩ := t
    cases val
    · rcases h with h | h
      · exact absurd h Bool.false_ne_true
      · have h' : str = "" := h
        subst h'
        rfl
    · rfl
  · intro v h1 h2
    simp [ConvertIntPtrToInt4, ConvertInt4ToIntPtr, int32ofInt]
    omega
  · intro x hv h1 h2
    obtain ⟨v, val⟩ := x
    have h' : val = true := hv
    subst h'
    have hv1 : -2147483648 ≤ v := h1
    have hv2 : v < 2147483648 := h2
    simp [ConvertInt4ToIntPtr, ConvertIntPtrToInt4, int32ofInt]
    omega
  · intro x hv h0
    obtain ⟨v, val⟩ := x
    have h' : val = false := hv
    subst h'
    have h0' : v = 0 := h0
    subst h0'
    rfl

/-- Witness for C7 amended: the integer round trip at the in-range value
25, and the string round trips at concrete values. -/
theorem claim7_witness :
    ConvertInt4ToIntPtr (ConvertIntPtrToInt4 (some (25 : Int))) =
      some (25 : Int) ∧
    ConvertStringPtrToText (ConvertTextToStringPtr ⟨"hello", true⟩) =
      ⟨"hello", true⟩ :=
  ⟨claim7_amended_roundtrips.2.2.2.1 25 (by norm_num) (by norm_num),
   claim7_amended_roundtrips.2.1 ⟨"hello", true⟩ (Or.inl rfl)⟩

/-- C4: for every create request whose email already exists among the
stored rows — whatever the other field values — creation fails with
Conflict ("Email Already Exists"); the database state is returned
unchanged, and the trace shows the only storage operation issued is the
email-existence read, never an insert. -/
theorem claim4_duplicate_email_conflict_no_insert
    (st : DBState) (o : OracleResponses) (req : CreateUserRequest)
    (h1 : emailExistsState st.rows req.email = true)
    (h2 : o.emailExistsR = .ok true) :
    UserService.CreateUser dbStorage st req =
      (.error (NewConflictError "Email Already Exists"), st) ∧
    UserService.CreateUser traceStorage ([], o) req =
      (.error (NewConflictError "Email Already Exists"),
       ([StorageOp.emailExists req.email], o)) := by
  constructor
  · simp [UserService.CreateUser, dbStorage, h1]
  · simp [UserService.CreateUser, traceStorage, h2]

/-- Witness for C4: creating a second user with `sampleUser`'s email
against the one-row database yields Conflict and leaves the state as it
was. -/
theorem claim4_witness :
    UserService.CreateUser dbStorage sampleDB sampleCreateReq =
      (.error (NewConflictError "Email Already Exists"), sampleDB) :=
  (claim4_duplicate_email_conflict_no_insert sampleDB
    { sampleOracle with emailExistsR := .ok true } sampleCreateReq
    (by decide) rfl).1

/-- C6: for every identifier that parses but matches no stored row,
update and delete fail with NotFound ("User not found"); the database
state is returned unchanged, and the trace shows the only storage
operation issued is the existence read — no write or delete is ever
issued. -/
theorem claim6_missing_record_not_found_before_write
    (st : DBState) (s : String) (id : UUID) (req : UpdateUserRequest)
    (o : OracleResponses)
    (hparse : uuidParse s = some id)
    (hnone : userExistsState st.rows id = false)
    (h2 : o.userExistsR = .ok false) :
    UserService.UpdateUser dbStorage st s req =
      (.error (NewNotFoundError "User not found"), st) ∧
    UserService.DeleteUser dbStorage st s =
      (.error (NewNotFoundError "User not found"), st) ∧
    UserService.UpdateUser traceStorage ([], o) s req =
      (.error (NewNotFoundError "User not found"),
       ([StorageOp.userExists id], o)) ∧
    UserService.DeleteUser traceStorage ([], o) s =
      (.error (NewNotFoundError "User not found"),
       ([StorageOp.userExists id], o)) := by
  refine ⟨?_, ?_, ?_, ?_⟩ <;>
    simp [UserService.UpdateUser, UserService.DeleteUser, dbStorage,
      traceStorage, hparse, hnone, h2]

/-- Witness for C6 at a parseable identifier absent from the one-row
database. -/
theorem claim6_witness :
    UserService.DeleteUser dbStorage sampleDB
        "00000000-0000-0000-0000-000000000001" =
      (.error (NewNotFoundError "User not found"), sampleDB) :=
  (claim6_missing_record_not_found_before_write sampleDB
    "00000000-0000-0000-0000-000000000001"
    ⟨List.replicate 15 0 ++ [1]⟩ emptyUpdate
    { sampleOracle with userExistsR := .ok false }
    (by rfl) (by decide) (by rfl)).2.1

/-- C8: whenever the storage read succeeds with a list of rows, the list
operation succeeds, returns exactly those rows projected to the response
shape in the order the read yielded them, and a total equal to their
number; against the pure database it returns all stored rows in the
`ORDER BY created_at DESC` order of the `ListUsers` query, with total
equal to the number of stored rows (the empty list is an ordinary
success with total 0). -/
theorem claim8_list_returns_all_rows_with_count
    (o : OracleResponses) (users : List DBUser) (st : DBState)
    (h : o.listUsersR = .ok users) :
    UserService.ListUsers traceStorage ([], o) =
      (.ok ⟨users.map ConvertToUserResponse, users.length⟩,
       ([StorageOp.listUsers], o)) ∧
    UserService.ListUsers dbStorage st =
      (.ok ⟨(orderByCreatedAtDesc st.rows).map ConvertToUserResponse,
        st.rows.length⟩, st) := by
  constructor
  · simp [UserService.ListUsers, traceStorage, h]
  · simp [UserService.ListUsers, dbStorage, length_orderByCreatedAtDesc]

/-- Witness for C8 with an empty storage read: a non-error result with
no users and total 0. -/
theorem claim8_witness :
    UserService.ListUsers traceStorage ([], sampleOracle) =
      (.ok ⟨[], 0⟩, ([StorageOp.listUsers], sampleOracle)) :=
  (claim8_list_returns_all_rows_with_count sampleOracle [] sampleDB
    rfl).1

/-- C2 counterexample: a present field does not always map to a marker
carrying exactly the new value — the age marker holds a 32-bit value, so
an update request with age `2147483648` produces a marker carrying
`-2147483648`. -/
theorem claim2_counterexample :
    (UserService.buildUpdateParams uuid0
      { emptyUpdate with age := some 2147483648 }).age =
      ⟨-2147483648, true⟩ ∧
    (UserService.buildUpdateParams uuid0
      { emptyUpdate with age := some 2147483648 }).age ≠
      ⟨2147483648, true⟩ := by
  constructor
  · decide
  · decide

/-- C2 amended: for every update request and existing record, each
absent field maps to the "no value" marker and each present field to a
"has value" marker carrying the new value — for age, provided the value
fits in signed 32 bits, the width the storage marker holds; under the
coalesce-with-existing-value storage semantics a "no value" marker
retains the stored value, and the empty body leaves the record unchanged
except `updated_at`. -/
theorem claim2_amended_partial_update_markers
    (id : UUID) (req : UpdateUserRequest) (u : DBUser) (now : Nat) :
    ((req.firstName = none →
        (UserService.buildUpdateParams id req).firstName = ⟨"", false⟩) ∧
     (req.lastName = none →
        (UserService.buildUpdateParams id req).lastName = ⟨"", false⟩) ∧
     (req.email = none →
        (UserService.buildUpdateParams id req).email = ⟨"", false⟩) ∧
     (req.phone = none →
        (UserService.buildUpdateParams id req).phone = ⟨"", false⟩) ∧
     (req.age = none →
        (UserService.buildUpdateParams id req).age = ⟨0, false⟩) ∧
     (req.status = none →
        (UserService.buildUpdateParams id req).status = ⟨"", false⟩)) ∧
    ((∀ v, req.firstName = some v →
        (UserService.buildUpdateParams id req).firstName = ⟨v, true⟩) ∧
     (∀ v, req.lastName = some v →
        (UserService.buildUpdateParams id req).lastName = ⟨v, true⟩) ∧
     (∀ v, req.email = some v →
        (UserService.buildUpdateParams id req).email = ⟨v, true⟩) ∧
     (∀ v, req.phone = some v →
        (UserService.buildUpdateParams id req).phone = ⟨v, true⟩) ∧
     (∀ v, req.age = some v → -2147483648 ≤ v → v < 2147483648 →
        (UserService.buildUpdateParams id req).age = ⟨v, true⟩) ∧
     (∀ v, req.status = some v →
        (UserService.buildUpdateParams id req).status = ⟨v, true⟩)) ∧
    ((req.firstName = none →
        (applyUpdate u (UserService.buildUpdateParams id req) now).firstName
          = u.firstName) ∧
     (req.lastName = none →
        (applyUpdate u (UserService.buildUpdateParams id req) now).lastName
          = u.lastName) ∧
     (req.email = none →
        (applyUpdate u (UserService.buildUpdateParams id req) now).email
          = u.email) ∧
     (req.phone = none →
        (applyUpdate u (UserService.buildUpdateParams id req) now).phone
          = u.phone) ∧
     (req.age = none →
        (applyUpdate u (UserService.buildUpdateParams id req) now).age
          = u.age) ∧
     (req.status = none →
        (applyUpdate u (UserService.buildUpdateParams id req) now).status
          = u.status)) ∧
    applyUpdate u (UserService.buildUpdateParams id emptyUpdate) now =
      { u with updatedAt := ⟨now, true⟩ } := by
  refine ⟨⟨?_, ?_, ?_, ?_, ?_, ?_⟩, ⟨?_, ?_, ?_, ?_, ?_, ?_⟩,
    ⟨?_, ?_, ?_, ?_, ?_, ?_⟩, ?_⟩
  · intro h
    simp [UserService.buildUpdateParams, ConvertStringPtrToText, h]
  · intro h
    simp [UserService.buildUpdateParams, ConvertStringPtrToText, h]
  · intro h
    simp [UserService.buildUpdateParams, ConvertStringPtrToText, h]
  · intro h
    simp [UserService.buildUpdateParams, ConvertStringPtrToText, h]
  · intro h
    simp [UserService.buildUpdateParams, ConvertIntPtrToInt4, h]
  · intro h
    simp [UserService.buildUpdateParams, h]
  · intro v h
    simp [UserService.buildUpdateParams, ConvertStringPtrToText, h]
  · intro v h
    simp [UserService.buildUpdateParams, ConvertStringPtrToText, h]
  · intro v h
    simp [UserService.buildUpdateParams, ConvertStringPtrToText, h]
  · intro v h
    simp [UserService.buildUpdateParams, ConvertStringPtrToText, h]
  · intro v h h1 h2
    simp [UserService.buildUpdateParams, ConvertIntPtrToInt4, int32ofInt, h]
    omega
  · intro v h
    simp [UserService.buildUpdateParams, h]
  · intro h
    simp [applyUpdate, UserService.buildUpdateParams,
      ConvertStringPtrToText, h]
  · intro h
    simp [applyUpdate, UserService.buildUpdateParams,
      ConvertStringPtrToText, h]
  · intro h
    simp [applyUpdate, UserService.buildUpdateParams,
      ConvertStringPtrToText, h]
  · intro h
    simp [applyUpdate, UserService.buildUpdateParams,
      ConvertStringPtrToText, h]
  · intro h
    simp [applyUpdate, UserService.buildUpdateParams,
      ConvertIntPtrToInt4, h]
  · intro h
    simp [applyUpdate, UserService.buildUpdateParams, h]
  · obtain ⟨uid, fn, ln, em, ph, ag, stt, ca, ua⟩ := u
    simp [applyUpdate, UserService.buildUpdateParams, emptyUpdate,
      ConvertStringPtrToText, ConvertIntPtrToInt4]

/-- Witness for C2 amended: an in-range present age maps to a marker
carrying it, and the empty body applied to the sample row changes only
`updated_at`. -/
theorem claim2_witness :
    (UserService.buildUpdateParams uuid0
      { emptyUpdate with age := some 25 }).age = ⟨25, true⟩ ∧
    applyUpdate sampleUser (UserService.buildUpdateParams uuid0 emptyUpdate)
      5 = { sampleUser with updatedAt := ⟨5, true⟩ } :=
  ⟨(claim2_amended_partial_update_markers uuid0
      { emptyUpdate with age := some 25 } sampleUser 5).2.1.2.2.2.2.1 25
      rfl (by norm_num) (by norm_num),
   (claim2_amended_partial_update_markers uuid0 emptyUpdate sampleUser
      5).2.2.2⟩

/-- C3: for every update on an existing record, supplying an email that
differs from the record's current email and already exists in storage
(hence belongs to another record) yields Conflict ("Email already
exists"); supplying an email equal to the record's current email raises
no Conflict even though the email exists in storage: the flow proceeds
straight to the write, whose outcome is never a 409, and when the
written row satisfies the schema constraints the update succeeds with
the coalesced row. -/
theorem claim3_update_email_conflict_semantics
    (st : DBState) (s : String) (id : UUID) (u : DBUser)
    (req : UpdateUserRequest) (e : String)
    (hparse : uuidParse s = some id)
    (hfind : st.rows.find? (fun r => r.userID = id) = some u)
    (hemail : req.email = some e) :
    (e ≠ u.email → emailExistsState st.rows e = true →
      (UserService.UpdateUser dbStorage st s req).1 =
        .error (NewConflictError "Email already exists")) ∧
    (e = u.email →
      UserService.UpdateUser dbStorage st s req =
        UserService.updateUserWrite dbStorage st id req ∧
      (∀ a : AppError,
        (UserService.updateUserWrite dbStorage st id req).1 = .error a →
          a.statusCode ≠ 409) ∧
      (updateConstraintError st.rows
          (applyUpdate u (UserService.buildUpdateParams id req) st.now) =
          none →
        (UserService.UpdateUser dbStorage st s req).1 =
          .ok (ConvertToUserResponse
            (applyUpdate u (UserService.buildUpdateParams id req)
              st.now)))) := by
  have hex : userExistsState st.rows id = true := any_of_find? hfind
  constructor
  · intro h1 h2
    have h3 : u.email ≠ e := Ne.symm h1
    simp [UserService.UpdateUser, dbStorage, hparse, hex, hemail, h2,
      hfind, h3]
  · intro heq
    subst heq
    refine ⟨?_, ?_, ?_⟩
    · simp [UserService.UpdateUser, dbStorage, hparse, hex, hemail, hfind]
    · intro a ha
      have h500 := updateUserWrite_error_is_500 dbStorage st id req a ha
      omega
    · intro hcon
      have hid : (UserService.buildUpdateParams id req).userID = id := rfl
      simp [UserService.UpdateUser, UserService.updateUserWrite, dbStorage,
        hparse, hex, hemail, hfind, hcon, hid]

/-- Witness for C3: updating the sample row with its own current email
succeeds (no Conflict) even though the email exists in storage. -/
theorem claim3_witness :
    (UserService.UpdateUser dbStorage sampleDB
      "00000000-0000-0000-0000-000000000000"
      { emptyUpdate with email := some "john@example.com" }).1 =
      .ok (ConvertToUserResponse (applyUpdate sampleUser
        (UserService.buildUpdateParams uuid0
          { emptyUpdate with email := some "john@example.com" }) 7)) :=
  (((claim3_update_email_conflict_semantics sampleDB
    "00000000-0000-0000-0000-000000000000" uuid0 sampleUser
    { emptyUpdate with email := some "john@example.com" }
    "john@example.com" (by rfl) (by rfl) rfl).2 rfl).2.2) (by rfl)

/-- C10: a create request carrying status as the empty string is not
rejected by the enum-membership rule (`omitempty` short-circuits on the
zero value), and — exactly as for an omitted status, which decodes to
the same empty string — the created user's status is Active: for every
such request whose remaining fields are acceptable to the schema (fresh
email and no constraint violation on the inserted row), the inserted row
and the response both carry "Active". -/
theorem claim10_empty_status_defaults_active
    (st : DBState) (req : CreateUserRequest)
    (hs : req.status = "")
    (hmail : emailExistsState st.rows req.email = false)
    (hcon : insertConstraintError st.rows (insertedRow st req) = none) :
    validateCreateStatus req.status = none ∧
    (insertedRow st req).status = UserStatusActive ∧
    UserService.CreateUser dbStorage st req =
      (.ok (ConvertToUserResponse (insertedRow st req)),
       { st with rows := st.rows ++ [insertedRow st req] }) := by
  refine ⟨by simp [validateCreateStatus, hs], by simp [insertedRow, hs], ?_⟩
  have hcon2 : insertConstraintError st.rows
      { userID := st.freshID
        firstName := req.firstName
        lastName := req.lastName
        email := req.email
        phone := ConvertStringPtrToText req.phone
        age := ConvertIntPtrToInt4 req.age
        status := "Active"
        createdAt := ⟨st.now, true⟩
        updatedAt := ⟨st.now, true⟩ } = none := by
    rw [← hcon]
    simp [insertedRow, hs, UserStatusActive]
  simp [UserService.CreateUser, dbStorage, hmail, insertedRow, hs,
    UserStatusActive, hcon2]

/-- Witness for C10: creating with a fresh email and empty status against
the sample database inserts an Active row. -/
theorem claim10_witness :
    UserService.CreateUser dbStorage sampleDB
        { sampleCreateReq with email := "jane@example.com" } =
      (.ok (ConvertToUserResponse (insertedRow sampleDB
         { sampleCreateReq with email := "jane@example.com" })),
       { sampleDB with rows := sampleDB.rows ++
          [insertedRow sampleDB
            { sampleCreateReq with email := "jane@example.com" }] }) :=
  (claim10_empty_status_defaults_active sampleDB
    { sampleCreateReq with email := "jane@example.com" } rfl
    (by decide) (by rfl)).2.2

end UserAPI
